import Mathlib

/-!
# DBZ-Arena simulation core: shallow embedding and verification

This file embeds the per-frame simulation core of the DBZ-Arena two-player
fighter (the `Player` entity of `src/entities/Player.js` and the
`CombatSystem` of `src/systems/CombatSystem.js`) into Lean and proves the
specification's testable properties about it.

Modelling conventions:
* JavaScript numbers are modelled as rationals (`ℚ`); the clamping structure
  (`Math.max` / `Math.min`) is identical, and every decimal constant of the
  source is an exact rational.
* The Phaser/Matter.js physics boundary (forces, velocities, bodies, timers)
  is out of scope per the spec's §1; operations that merely request forces
  are omitted, while every mutation of the simulation state (health, stamina,
  ki, state machine, projectile set, cooldown table) is embedded faithfully.
* `this.scene.time.now` and frame deltas are passed as explicit `now`/`delta`
  arguments.
* The one square root of the source (`Math.sqrt` on a squared magnitude that
  is only ever compared against a nonnegative threshold or against zero) is
  embedded by comparing the squared magnitudes, which is equivalent since
  `Real.sqrt` is monotone and vanishes exactly on zero.
-/

namespace DBZArena

/-! ## Balance constants

From `src/constants/gameBalance.js` and `src/constants/physics.js`.
Each decimal literal is transcribed as an exact rational.
-/

/-- `KI_SYSTEM.maxKi` -/
def maxKi : ℚ := 100

/-- `KI_SYSTEM.kiGainOnHit` -/
def kiGainOnHit : ℚ := 1

/-- `KI_SYSTEM.kiGainOnDamage` (1.5) -/
def kiGainOnDamage : ℚ := 3/2

/-- `KI_SYSTEM.chargeRateBase` (0.03) -/
def chargeRateBase : ℚ := 3/100

/-- `KI_SYSTEM.chargeRateMax` (0.25) -/
def chargeRateMax : ℚ := 1/4

/-- `KI_SYSTEM.chargeRampTime` -/
def chargeRampTime : ℚ := 3000

/-- `KI_SYSTEM.partialPowerThreshold` (50, renamed here) -/
def halfPowerThreshold : ℚ := 50

/-- `KI_SYSTEM.transformationThreshold` -/
def transformationThreshold : ℚ := 100

/-- `KI_SYSTEM.transformationDuration` (milliseconds) -/
def transformationDuration : ℚ := 25000

/-- `TRANSFORMATION_BONUSES.maxHealthBonus` -/
def maxHealthBonus : ℚ := 20

/-- `TRANSFORMATION_BONUSES.maxStaminaBonus` -/
def maxStaminaBonus : ℚ := 20

/-- `TRANSFORMATION_BONUSES.defenseMultiplier` (0.85) -/
def defenseMultiplier : ℚ := 85/100

/-- `TRANSFORMATION_BONUSES.staminaRegenMultiplier` (1.6) -/
def staminaRegenMultiplier : ℚ := 8/5

/-- `TRANSFORMATION_BONUSES.flightDrainMultiplier` (0.75) -/
def flightDrainMultiplier : ℚ := 3/4

/-- `COMBAT.knockbackScaling` (0.01) -/
def knockbackScaling : ℚ := 1/100

/-- `COMBAT_PHYSICS.knockbackForce` (0.015) -/
def knockbackForce : ℚ := 3/200

/-- `FLIGHT.knockbackExitThreshold` -/
def knockbackExitThreshold : ℚ := 8

/-- The `16.67` ms frame-normalization divisor used throughout the source
(`delta / 16.67` normalizes a millisecond delta to 60 fps frames). -/
def frameUnit : ℚ := 1667/100

/-- The fixed `upwardBias = -0.4` blended into projectile knockback direction
in `CombatSystem.applyProjectileHit`. -/
def upwardBias : ℚ := -2/5

/-! ## Data model -/

/-- `PLAYER_STATES` from `gameBalance.js` (a closed set of state strings in the
source; `setState` rejects anything outside it, so an enum is faithful). -/
inductive PState where
  | GROUNDED
  | AIRBORNE
  | FLYING
  | CHARGING
  | STUNNED
  | DEAD
deriving DecidableEq, Repr

/-- The stat block computed once by `Player.calculateStats()`.  Only the
fields the verified operations read are embedded; each is
`base constant × character multiplier` (or an absolute value from the
character profile), already folded into a single rational here. -/
structure Stats where
  maxHealth : ℚ
  maxStamina : ℚ
  flightStaminaDrain : ℚ
  knockbackResistance : ℚ
  attackCooldown : ℚ
  attackStaminaCost : ℚ
  staminaRegenRate : ℚ
  staminaRegenRateAir : ℚ
  staminaRegenDelay : ℚ
deriving DecidableEq, Repr

/-- The mutable simulation state of one `Player` entity (`Player.js`
constructor).  Physics-body fields (position, velocity, friction) live behind
the physics boundary and are omitted; every numeric/flag field the verified
operations mutate is present. -/
structure Player where
  health : ℚ
  stamina : ℚ
  ki : ℚ
  damageTaken : ℚ
  state : PState
  isInvincible : Bool
  isCharging : Bool
  chargeStartTime : ℚ
  canTransform : Bool
  hasHalfPower : Bool       -- `hasPartialPower` in the source
  transformationReadyTime : ℚ
  isTransformed : Bool
  transformationEndTime : ℚ
  lastStaminaUse : ℚ
deriving DecidableEq, Repr

/-- `Player.getStats()`: base stat block, or the transformation overlay when
transformed.  Of the overlaid fields, those present in our `Stats` projection
are the max pools, the regen rates and the flight drain; the remaining
overlaid fields (attack damage, movement/flight speed caps) feed only the
physics boundary.  `attackCooldown`, `attackStaminaCost`,
`knockbackResistance` and `staminaRegenDelay` are not overlaid in the
source. -/
def Player.getStats (base : Stats) (p : Player) : Stats :=
  if p.isTransformed then
    { base with
      maxHealth := base.maxHealth + maxHealthBonus
      maxStamina := base.maxStamina + maxStaminaBonus
      staminaRegenRate := base.staminaRegenRate * staminaRegenMultiplier
      staminaRegenRateAir := base.staminaRegenRateAir * staminaRegenMultiplier
      flightStaminaDrain := base.flightStaminaDrain * flightDrainMultiplier }
  else base

/-- `Player.canAct()` -/
def Player.canAct (p : Player) : Bool :=
  p.state != PState.STUNNED && p.state != PState.DEAD

/-- `Player.isFlying()` -/
def Player.isFlying (p : Player) : Bool :=
  p.state == PState.FLYING

/-- `Player.setState(newState)`: in the source this validates the state name
(impossible here by typing), refuses same-state transitions, and runs
enter/exit side effects.  The only enter/exit effects that touch simulation
state (rather than physics-body friction) are the jump-count reset and the KO
notification, neither of which is read by a verified operation, so the state
field update is the whole embedded effect. -/
def Player.setState (newState : PState) (p : Player) : Player :=
  if p.state = newState then p else { p with state := newState }

/-- `Player.exitFlight()` -/
def Player.exitFlight (p : Player) : Player :=
  if !p.isFlying then p else p.setState PState.AIRBORNE

/-- `Player.updateTransformationState()` -/
def Player.updateTransformationState (now : ℚ) (p : Player) : Player :=
  let kiPercent := p.ki / maxKi * 100
  let hasHalfPower := decide (halfPowerThreshold ≤ kiPercent)
  let wasTransformReady := p.canTransform
  let canTransform := decide (transformationThreshold ≤ kiPercent)
  let p' := { p with hasHalfPower := hasHalfPower, canTransform := canTransform }
  if canTransform && !wasTransformReady then
    { p' with transformationReadyTime := now }
  else p'

/-- `Player.gainKi(amount)` -/
def Player.gainKi (now amount : ℚ) (p : Player) : Player :=
  Player.updateTransformationState now { p with ki := min maxKi (p.ki + amount) }

/-- `Player.takeDamage(amount)` -/
def Player.takeDamage (amount : ℚ) (p : Player) : Player :=
  if p.isInvincible then p
  else if p.state = PState.DEAD then p
  else
    let actualDamage := if p.isTransformed then amount * defenseMultiplier else amount
    let p' := { p with
      health := max 0 (p.health - actualDamage)
      damageTaken := p.damageTaken + actualDamage
      isInvincible := true }   -- `setInvincible(COMBAT.invincibilityDuration)`
    if p'.health ≤ 0 then p'.setState PState.DEAD else p'

/-- `Player.useStamina(amount)` -/
def Player.useStamina (now amount : ℚ) (p : Player) : Bool × Player :=
  if p.stamina < amount then (false, p)
  else (true, { p with stamina := p.stamina - amount, lastStaminaUse := now })

/-- `Player.regenerateStamina(delta)` -/
def Player.regenerateStamina (base : Stats) (now delta : ℚ) (p : Player) : Player :=
  if p.isFlying then p
  else
    let stats := p.getStats base
    if now - p.lastStaminaUse < stats.staminaRegenDelay then p
    else
      let regenRate := if p.state = PState.GROUNDED
        then stats.staminaRegenRate
        else stats.staminaRegenRateAir
      { p with stamina := min stats.maxStamina (p.stamina + regenRate * (delta / frameUnit)) }

/-- `Player.consumeFlightStamina(delta)`; returns whether stamina remains
(`false` = ran out, flight was exited). -/
def Player.consumeFlightStamina (base : Stats) (now delta : ℚ) (p : Player) : Bool × Player :=
  if !p.isFlying then (true, p)
  else
    let drainAmount := base.flightStaminaDrain * (delta / frameUnit)
    let p' := { p with stamina := max 0 (p.stamina - drainAmount), lastStaminaUse := now }
    if p'.stamina ≤ 0 then (false, p'.exitFlight) else (true, p')

/-- `Player.getChargeRate()` -/
def Player.getChargeRate (now : ℚ) (p : Player) : ℚ :=
  let holdDuration := now - p.chargeStartTime
  let rampProgress := min 1 (holdDuration / chargeRampTime)
  let easedProgress := rampProgress * rampProgress
  chargeRateBase + (chargeRateMax - chargeRateBase) * easedProgress

/-- `Player.stopCharging()` -/
def Player.stopCharging (p : Player) : Player :=
  { p with isCharging := false, chargeStartTime := 0 }

/-- `Player.startCharging()` -/
def Player.startCharging (now : ℚ) (p : Player) : Bool × Player :=
  if !p.canAct then (false, p)
  else if maxKi ≤ p.ki then (false, p)
  else (true, { p with isCharging := true, chargeStartTime := now })

/-- `Player.updateCharging(delta)` -/
def Player.updateCharging (now delta : ℚ) (p : Player) : Player :=
  if !p.isCharging then p
  else
    let currentRate := p.getChargeRate now
    let chargeAmount := currentRate * (delta / frameUnit)
    let p' := p.gainKi now chargeAmount
    if maxKi ≤ p'.ki then p'.stopCharging else p'

/-- `Player.activateTransformation()` -/
def Player.activateTransformation (base : Stats) (now : ℚ) (p : Player) : Bool × Player :=
  if !p.canTransform then (false, p)
  else if p.isTransformed then (false, p)
  else
    let p1 := { p with
      isTransformed := true
      transformationEndTime := now + transformationDuration
      ki := 0
      canTransform := false
      hasHalfPower := false
      transformationReadyTime := 0 }
    let p2 := { p1 with health := min (p1.health + maxHealthBonus) (p1.getStats base).maxHealth }
    let p3 := { p2 with stamina := min (p2.stamina + maxStaminaBonus) (p2.getStats base).maxStamina }
    (true, p3)

/-- `Player.endTransformation()` -/
def Player.endTransformation (base : Stats) (p : Player) : Player :=
  if !p.isTransformed then p
  else
    let transformedMaxHealth := (p.getStats base).maxHealth
    let transformedMaxStamina := (p.getStats base).maxStamina
    let p' := { p with isTransformed := false, transformationEndTime := 0 }
    let healthRatio := p'.health / transformedMaxHealth
    let staminaRatio := p'.stamina / transformedMaxStamina
    { p' with
      health := min (healthRatio * base.maxHealth) base.maxHealth
      stamina := min (staminaRatio * base.maxStamina) base.maxStamina }

/-- `Player.onHitLanded()` -/
def Player.onHitLanded (now : ℚ) (p : Player) : Player :=
  p.gainKi now kiGainOnHit

/-- `Player.applyKnockback(force)` restricted to its simulation-state effect.
The source applies the resistance-divided force to the physics body, computes
`magnitude = Math.sqrt(rx² + ry²)`, exits flight when
`magnitude > knockbackExitThreshold * 0.001`, and enters STUNNED.  We receive
the squared magnitude `|force|²` of the incoming force and compare squares,
which is equivalent for nonnegative quantities.  The deferred stun-exit timer
is a separate scheduled event outside this mutation. -/
def Player.applyKnockback (base : Stats) (forceMagSq : ℚ) (p : Player) : Player :=
  let resistedMagSq := forceMagSq / (base.knockbackResistance * base.knockbackResistance)
  let threshold := knockbackExitThreshold * (1/1000)
  let p' := if p.isFlying && decide (threshold * threshold < resistedMagSq)
    then p.exitFlight else p
  p'.setState PState.STUNNED

/-- `Player.reset(x, y)` restricted to its simulation-state effect (the
position/velocity writes go to the physics boundary). -/
def Player.reset (base : Stats) (p : Player) : Player :=
  { p with
    health := base.maxHealth
    stamina := base.maxStamina
    ki := 0
    damageTaken := 0
    isInvincible := false
    isCharging := false
    chargeStartTime := 0
    canTransform := false
    hasHalfPower := false
    transformationReadyTime := 0
    isTransformed := false
    transformationEndTime := 0
    state := PState.AIRBORNE }

/-! ## Combat system

From `src/systems/CombatSystem.js`.  The system's mutable state is the set of
tracked projectiles (a JS `Set`, embedded as a list) and the per-player
attack-cooldown map (a JS `Map`, embedded as an association list whose lookup
returns the most recent entry).
-/

/-- A 2D vector (`{ x, y }` objects of the source). -/
structure Vec2 where
  x : ℚ
  y : ℚ
deriving DecidableEq, Repr

/-- The `Projectile` entity restricted to the fields the combat system reads:
owner player number, damage, travel direction (`getDirection()`), and the
`shouldDestroy` flag. -/
structure Projectile where
  owner : Nat
  damage : ℚ
  dir : Vec2
  shouldDestroy : Bool
deriving DecidableEq, Repr

/-- The intermediate knockback quantities computed at lines 189-205 of
`CombatSystem.applyProjectileHit` (only reached past the invincibility
guard):
* `magnitude` is `knockbackForce * (1 + target.damageTaken * knockbackScaling)`
  — the knockback magnitude before the target's resistance divisor;
* `dirMagSq` is the squared magnitude `dirX² + dirY²` of the combined
  direction `(projDir.x, projDir.y + upwardBias)`; the source divides each
  component by `Math.sqrt(dirMagSq)`. -/
structure KbInfo where
  magnitude : ℚ
  dirMagSq : ℚ
deriving DecidableEq, Repr

/-- The result of `CombatSystem.applyProjectileHit(projectile, target)`:
the mutated target and attacker, the projectile set after the call, the
projectile object itself after the call, whether `projectile.destroy()` ran,
and the knockback intermediates (`none` when the invincibility guard returned
early, before they are computed). -/
structure HitOutcome where
  target : Player
  attacker : Option Player
  projectiles : List Projectile
  proj : Projectile
  destroyed : Bool
  kb : Option KbInfo
deriving Repr

/-- `CombatSystem.applyProjectileHit(projectile, target)` (lines 166-213).
`attacker` is `this.players.get(projectile.owner)`.  The knockback force
vector handed to `target.applyKnockback` is
`(dirX/dirMag · M, dirY/dirMag · M)` where `M` is `kb.magnitude`; since the
direction is scaled to unit length its squared magnitude is `M²`, which is
what the embedded `applyKnockback` consumes.  (When `dirMag = 0` the source
produces NaN components — see the degeneracy theorem for claim C2; no other
verified property passes through that branch.) -/
def applyProjectileHit (base : Stats) (now : ℚ) (proj : Projectile)
    (target : Player) (attacker : Option Player)
    (projectiles : List Projectile) : HitOutcome :=
  if target.isInvincible then
    { target := target, attacker := attacker, projectiles := projectiles
      proj := proj, destroyed := false, kb := none }
  else
    let target1 := target.takeDamage proj.damage
    let target2 := target1.gainKi now kiGainOnDamage
    let attacker' := attacker.map (Player.onHitLanded now)
    let damageMultiplier := 1 + target2.damageTaken * knockbackScaling
    let knockbackMagnitude := knockbackForce * damageMultiplier
    let dirX := proj.dir.x
    let dirY := proj.dir.y + upwardBias
    let dirMagSq := dirX * dirX + dirY * dirY
    let target3 := target2.applyKnockback base (knockbackMagnitude * knockbackMagnitude)
    { target := target3, attacker := attacker'
      projectiles := projectiles.erase proj   -- `this.projectiles.delete(projectile)`
      proj := proj                            -- `destroy()` does not touch `shouldDestroy`
      destroyed := true
      kb := some { magnitude := knockbackMagnitude, dirMagSq := dirMagSq } }

/-- The result of `CombatSystem.attemptAttack(player, createProjectile)`. -/
structure AttackOutcome where
  ok : Bool
  player : Player
  cooldowns : List (Nat × ℚ)
  projectiles : List Projectile
deriving Repr

/-- `CombatSystem.attemptAttack(player, createProjectile)` (lines 222-250).
`pn` is `player.playerNumber`; `cooldowns` is the `attackCooldowns` map
(`lookup` with default 0 matches `get(...) || 0`, and `Map.set` is embedded
as a cons, which shadows older entries for first-match lookup); `newProj` is
the projectile the `createProjectile` factory returns on success. -/
def attemptAttack (base : Stats) (now : ℚ) (pn : Nat) (player : Player)
    (cooldowns : List (Nat × ℚ)) (projectiles : List Projectile)
    (newProj : Projectile) : AttackOutcome :=
  let lastAttack := (cooldowns.lookup pn).getD 0
  let stats := player.getStats base
  if now - lastAttack < stats.attackCooldown then
    { ok := false, player := player, cooldowns := cooldowns, projectiles := projectiles }
  else if player.stamina < stats.attackStaminaCost then
    { ok := false, player := player, cooldowns := cooldowns, projectiles := projectiles }
  else
    let player' := (player.useStamina now stats.attackStaminaCost).2
    { ok := true
      player := player'
      cooldowns := (pn, now) :: cooldowns
      projectiles := projectiles ++ [newProj] }   -- `this.projectiles.add(projectile)`

/-! ## Operation sequences and the resource-bounds invariant (claim C1) -/

/-- The public `Player` operations quantified over in the bounds invariant.
Time arguments (`now`, millisecond `delta`) are explicit. -/
inductive Op where
  | takeDamage (amount : ℚ)
  | gainKi (now amount : ℚ)
  | useStamina (now amount : ℚ)
  | regenerateStamina (now delta : ℚ)
  | consumeFlightStamina (now delta : ℚ)
  | updateCharging (now delta : ℚ)
  | activateTransformation (now : ℚ)
  | endTransformation
  | reset
deriving DecidableEq, Repr

/-- Applies one operation to a player (dropping the boolean results of the
fallible operations, whose state effect is all that matters here). -/
def applyOp (base : Stats) (p : Player) : Op → Player
  | .takeDamage a => p.takeDamage a
  | .gainKi now a => p.gainKi now a
  | .useStamina now a => (p.useStamina now a).2
  | .regenerateStamina now d => p.regenerateStamina base now d
  | .consumeFlightStamina now d => (p.consumeFlightStamina base now d).2
  | .updateCharging now d => p.updateCharging now d
  | .activateTransformation now => (p.activateTransformation base now).2
  | .endTransformation => p.endTransformation base
  | .reset => p.reset base

/-- Runs a sequence of operations left to right. -/
def runOps (base : Stats) : Player → List Op → Player
  | p, [] => p
  | p, o :: rest => runOps base (applyOp base p o) rest

/-- An operation is valid when its damage/Ki/stamina amount and its time
delta are nonnegative — exactly how the game invokes them (damage and Ki
rewards are positive balance constants, deltas are frame times). -/
def Op.valid : Op → Prop
  | .takeDamage a => 0 ≤ a
  | .gainKi _ a => 0 ≤ a
  | .useStamina _ a => 0 ≤ a
  | .regenerateStamina _ d => 0 ≤ d
  | .consumeFlightStamina _ d => 0 ≤ d
  | .updateCharging _ d => 0 ≤ d
  | .activateTransformation _ => True
  | .endTransformation => True
  | .reset => True

instance : (o : Op) → Decidable o.valid
  | .takeDamage a => inferInstanceAs (Decidable (0 ≤ a))
  | .gainKi _ a => inferInstanceAs (Decidable (0 ≤ a))
  | .useStamina _ a => inferInstanceAs (Decidable (0 ≤ a))
  | .regenerateStamina _ d => inferInstanceAs (Decidable (0 ≤ d))
  | .consumeFlightStamina _ d => inferInstanceAs (Decidable (0 ≤ d))
  | .updateCharging _ d => inferInstanceAs (Decidable (0 ≤ d))
  | .activateTransformation _ => inferInstanceAs (Decidable True)
  | .endTransformation => inferInstanceAs (Decidable True)
  | .reset => inferInstanceAs (Decidable True)

/-- Well-formedness of a character's stat block: the pools and rates that the
bounds argument rests on are nonnegative (true of every authored character:
multipliers are positive, base constants nonnegative). -/
def StatsOK (base : Stats) : Prop :=
  0 ≤ base.maxHealth ∧ 0 ≤ base.maxStamina ∧ 0 ≤ base.flightStaminaDrain ∧
    0 ≤ base.staminaRegenRate ∧ 0 ≤ base.staminaRegenRateAir

/-- The spec's Player bounds invariant: health and stamina sit within the
*effective* (transformation-aware) maxima, and ki within `[0, 100]`. -/
def Inv (base : Stats) (p : Player) : Prop :=
  0 ≤ p.health ∧ p.health ≤ (p.getStats base).maxHealth ∧
    0 ≤ p.stamina ∧ p.stamina ≤ (p.getStats base).maxStamina ∧
    0 ≤ p.ki ∧ p.ki ≤ 100

instance (base : Stats) : Decidable (StatsOK base) :=
  inferInstanceAs (Decidable (0 ≤ base.maxHealth ∧ 0 ≤ base.maxStamina ∧
    0 ≤ base.flightStaminaDrain ∧ 0 ≤ base.staminaRegenRate ∧ 0 ≤ base.staminaRegenRateAir))

instance (base : Stats) (p : Player) : Decidable (Inv base p) :=
  inferInstanceAs (Decidable (0 ≤ p.health ∧ p.health ≤ (p.getStats base).maxHealth ∧
    0 ≤ p.stamina ∧ p.stamina ≤ (p.getStats base).maxStamina ∧ 0 ≤ p.ki ∧ p.ki ≤ 100))

/-- The player state constructed by `Player`'s constructor (and restored by
`reset`): full pools, zero ki, airborne. -/
def initialPlayer (base : Stats) : Player :=
  { health := base.maxHealth
    stamina := base.maxStamina
    ki := 0
    damageTaken := 0
    state := PState.AIRBORNE
    isInvincible := false
    isCharging := false
    chargeStartTime := 0
    canTransform := false
    hasHalfPower := false
    transformationReadyTime := 0
    isTransformed := false
    transformationEndTime := 0
    lastStaminaUse := 0 }

/-- The stat block of the default "Base Fighter" character profile (all
multipliers 1.0, `maxHealth = 100`, `maxEnergy = 100`) pushed through
`calculateStats()`. -/
def demoStats : Stats :=
  { maxHealth := 100
    maxStamina := 100
    flightStaminaDrain := 83/1000
    knockbackResistance := 1
    attackCooldown := 250
    attackStaminaCost := 8
    staminaRegenRate := 1/10
    staminaRegenRateAir := 7/100
    staminaRegenDelay := 400 }

/-! ## Invariant-preservation lemmas, one per operation -/

@[simp] theorem getStats_maxHealth (base : Stats) (p : Player) :
    (p.getStats base).maxHealth =
      if p.isTransformed then base.maxHealth + maxHealthBonus else base.maxHealth := by
  cases hT : p.isTransformed <;> simp [Player.getStats, hT]

@[simp] theorem getStats_maxStamina (base : Stats) (p : Player) :
    (p.getStats base).maxStamina =
      if p.isTransformed then base.maxStamina + maxStaminaBonus else base.maxStamina := by
  cases hT : p.isTransformed <;> simp [Player.getStats, hT]

theorem inv_setState (base : Stats) (p : Player) (s : PState) (h : Inv base p) :
    Inv base (p.setState s) := by
  unfold Player.setState
  split
  · exact h
  · exact h

theorem effMaxHealth_nonneg (base : Stats) (p : Player) (hb : StatsOK base) :
    0 ≤ (p.getStats base).maxHealth := by
  obtain ⟨hbH, -, -, -, -⟩ := hb
  have hBonus : (0:ℚ) ≤ maxHealthBonus := by norm_num [maxHealthBonus]
  simp only [getStats_maxHealth]
  split <;> linarith

theorem effMaxStamina_nonneg (base : Stats) (p : Player) (hb : StatsOK base) :
    0 ≤ (p.getStats base).maxStamina := by
  obtain ⟨-, hbS, -, -, -⟩ := hb
  have hBonus : (0:ℚ) ≤ maxStaminaBonus := by norm_num [maxStaminaBonus]
  simp only [getStats_maxStamina]
  split <;> linarith

theorem inv_takeDamage (base : Stats) (p : Player) (a : ℚ)
    (hb : StatsOK base) (h : Inv base p) (ha : 0 ≤ a) : Inv base (p.takeDamage a) := by
  obtain ⟨h1, h2, h3, h4, h5, h6⟩ := h
  have hEffH := effMaxHealth_nonneg base p hb
  simp only [Player.takeDamage]
  set d := if p.isTransformed = true then a * defenseMultiplier else a with hdDef
  have hd : (0:ℚ) ≤ d := by
    rw [hdDef]
    split
    · exact mul_nonneg ha (by norm_num [defenseMultiplier])
    · exact ha
  split_ifs with hInv hDead hKO
  · exact ⟨h1, h2, h3, h4, h5, h6⟩
  · exact ⟨h1, h2, h3, h4, h5, h6⟩
  · exact inv_setState base _ _
      ⟨le_max_left _ _, max_le hEffH (le_trans (by linarith) h2), h3, h4, h5, h6⟩
  · exact ⟨le_max_left _ _, max_le hEffH (le_trans (by linarith) h2), h3, h4, h5, h6⟩

theorem frameUnit_pos : (0:ℚ) < frameUnit := by norm_num [frameUnit]

theorem inv_gainKi (base : Stats) (p : Player) (now a : ℚ)
    (h : Inv base p) (ha : 0 ≤ a) : Inv base (p.gainKi now a) := by
  obtain ⟨h1, h2, h3, h4, h5, h6⟩ := h
  have hlow : (0:ℚ) ≤ min maxKi (p.ki + a) :=
    le_min (by norm_num [maxKi]) (add_nonneg h5 ha)
  have hhigh : min maxKi (p.ki + a) ≤ (100:ℚ) := min_le_left _ _
  simp only [Player.gainKi, Player.updateTransformationState]
  split
  · exact ⟨h1, h2, h3, h4, hlow, hhigh⟩
  · exact ⟨h1, h2, h3, h4, hlow, hhigh⟩

theorem inv_useStamina (base : Stats) (p : Player) (now a : ℚ)
    (h : Inv base p) (ha : 0 ≤ a) : Inv base (p.useStamina now a).2 := by
  obtain ⟨h1, h2, h3, h4, h5, h6⟩ := h
  simp only [Player.useStamina]
  split_ifs with hlt
  · exact ⟨h1, h2, h3, h4, h5, h6⟩
  · refine ⟨h1, h2, ?_, ?_, h5, h6⟩
    · show (0:ℚ) ≤ p.stamina - a
      linarith [not_lt.mp hlt]
    · show p.stamina - a ≤ (p.getStats base).maxStamina
      linarith

theorem getStats_regenRate_nonneg (base : Stats) (p : Player) (hb : StatsOK base) :
    0 ≤ (p.getStats base).staminaRegenRate := by
  obtain ⟨-, -, -, hbR, -⟩ := hb
  cases hT : p.isTransformed <;> simp [Player.getStats, hT]
  · exact hbR
  · exact mul_nonneg hbR (by norm_num [staminaRegenMultiplier])

theorem getStats_regenRateAir_nonneg (base : Stats) (p : Player) (hb : StatsOK base) :
    0 ≤ (p.getStats base).staminaRegenRateAir := by
  obtain ⟨-, -, -, -, hbRA⟩ := hb
  cases hT : p.isTransformed <;> simp [Player.getStats, hT]
  · exact hbRA
  · exact mul_nonneg hbRA (by norm_num [staminaRegenMultiplier])

theorem inv_regenerateStamina (base : Stats) (p : Player) (now delta : ℚ)
    (hb : StatsOK base) (h : Inv base p) (hd : 0 ≤ delta) :
    Inv base (p.regenerateStamina base now delta) := by
  obtain ⟨h1, h2, h3, h4, h5, h6⟩ := h
  have hx : (0:ℚ) ≤ delta / frameUnit := div_nonneg hd frameUnit_pos.le
  have hM := effMaxStamina_nonneg base p hb
  simp only [Player.regenerateStamina]
  split_ifs with hFly hDelay hGround
  · exact ⟨h1, h2, h3, h4, h5, h6⟩
  · exact ⟨h1, h2, h3, h4, h5, h6⟩
  · refine ⟨h1, h2, ?_, ?_, h5, h6⟩
    · show (0:ℚ) ≤ min (p.getStats base).maxStamina
        (p.stamina + (p.getStats base).staminaRegenRate * (delta / frameUnit))
      exact le_min hM
        (add_nonneg h3 (mul_nonneg (getStats_regenRate_nonneg base p hb) hx))
    · show min (p.getStats base).maxStamina
        (p.stamina + (p.getStats base).staminaRegenRate * (delta / frameUnit)) ≤
          (p.getStats base).maxStamina
      exact min_le_left _ _
  · refine ⟨h1, h2, ?_, ?_, h5, h6⟩
    · show (0:ℚ) ≤ min (p.getStats base).maxStamina
        (p.stamina + (p.getStats base).staminaRegenRateAir * (delta / frameUnit))
      exact le_min hM
        (add_nonneg h3 (mul_nonneg (getStats_regenRateAir_nonneg base p hb) hx))
    · show min (p.getStats base).maxStamina
        (p.stamina + (p.getStats base).staminaRegenRateAir * (delta / frameUnit)) ≤
          (p.getStats base).maxStamina
      exact min_le_left _ _

theorem inv_exitFlight (base : Stats) (p : Player) (h : Inv base p) :
    Inv base p.exitFlight := by
  unfold Player.exitFlight
  split
  · exact h
  · exact inv_setState base p _ h

theorem inv_consumeFlightStamina (base : Stats) (p : Player) (now delta : ℚ)
    (hb : StatsOK base) (h : Inv base p) (hd : 0 ≤ delta) :
    Inv base (p.consumeFlightStamina base now delta).2 := by
  obtain ⟨hbH, hbS, hbD, hbR, hbRA⟩ := hb
  obtain ⟨h1, h2, h3, h4, h5, h6⟩ := h
  have hx : (0:ℚ) ≤ delta / frameUnit := div_nonneg hd frameUnit_pos.le
  have hdr : (0:ℚ) ≤ base.flightStaminaDrain * (delta / frameUnit) := mul_nonneg hbD hx
  have hM := effMaxStamina_nonneg base p ⟨hbH, hbS, hbD, hbR, hbRA⟩
  have hcore : Inv base { p with
      stamina := max 0 (p.stamina - base.flightStaminaDrain * (delta / frameUnit))
      lastStaminaUse := now } :=
    ⟨h1, h2, le_max_left _ _, max_le hM (le_trans (by linarith) h4), h5, h6⟩
  simp only [Player.consumeFlightStamina]
  split_ifs with hNotFly hOut
  · exact ⟨h1, h2, h3, h4, h5, h6⟩
  · exact inv_exitFlight base _ hcore
  · exact hcore

theorem getChargeRate_nonneg (now : ℚ) (p : Player) : 0 ≤ p.getChargeRate now := by
  simp only [Player.getChargeRate]
  have he : (0:ℚ) ≤ min 1 ((now - p.chargeStartTime) / chargeRampTime) *
      min 1 ((now - p.chargeStartTime) / chargeRampTime) := mul_self_nonneg _
  have hc : (0:ℚ) ≤ (chargeRateMax - chargeRateBase) *
      (min 1 ((now - p.chargeStartTime) / chargeRampTime) *
        min 1 ((now - p.chargeStartTime) / chargeRampTime)) :=
    mul_nonneg (by norm_num [chargeRateMax, chargeRateBase]) he
  have hbase : (0:ℚ) ≤ chargeRateBase := by norm_num [chargeRateBase]
  linarith

theorem inv_updateCharging (base : Stats) (p : Player) (now delta : ℚ)
    (h : Inv base p) (hd : 0 ≤ delta) : Inv base (p.updateCharging now delta) := by
  have ha : (0:ℚ) ≤ p.getChargeRate now * (delta / frameUnit) :=
    mul_nonneg (getChargeRate_nonneg now p) (div_nonneg hd frameUnit_pos.le)
  have hgain := inv_gainKi base p now _ h ha
  simp only [Player.updateCharging]
  split_ifs with hC hMax
  · exact h
  · exact hgain
  · exact hgain

theorem inv_activateTransformation (base : Stats) (p : Player) (now : ℚ)
    (hb : StatsOK base) (h : Inv base p) :
    Inv base (p.activateTransformation base now).2 := by
  obtain ⟨hbH, hbS, -, -, -⟩ := hb
  obtain ⟨h1, h2, h3, h4, h5, h6⟩ := h
  simp only [Player.activateTransformation]
  split_ifs with hCT hT
  · exact ⟨h1, h2, h3, h4, h5, h6⟩
  · exact ⟨h1, h2, h3, h4, h5, h6⟩
  · refine ⟨?_, ?_, ?_, ?_, le_refl 0, by norm_num⟩
    · show (0:ℚ) ≤ min (p.health + maxHealthBonus) (base.maxHealth + maxHealthBonus)
      exact le_min (by norm_num [maxHealthBonus]; linarith) (by norm_num [maxHealthBonus]; linarith)
    · show min (p.health + maxHealthBonus) (base.maxHealth + maxHealthBonus) ≤
        base.maxHealth + maxHealthBonus
      exact min_le_right _ _
    · show (0:ℚ) ≤ min (p.stamina + maxStaminaBonus) (base.maxStamina + maxStaminaBonus)
      exact le_min (by norm_num [maxStaminaBonus]; linarith) (by norm_num [maxStaminaBonus]; linarith)
    · show min (p.stamina + maxStaminaBonus) (base.maxStamina + maxStaminaBonus) ≤
        base.maxStamina + maxStaminaBonus
      exact min_le_right _ _

theorem inv_endTransformation (base : Stats) (p : Player)
    (hb : StatsOK base) (h : Inv base p) : Inv base (p.endTransformation base) := by
  have hMH := effMaxHealth_nonneg base p hb
  have hMS := effMaxStamina_nonneg base p hb
  obtain ⟨hbH, hbS, -, -, -⟩ := hb
  obtain ⟨h1, h2, h3, h4, h5, h6⟩ := h
  simp only [Player.endTransformation]
  split_ifs with hNT
  · exact ⟨h1, h2, h3, h4, h5, h6⟩
  · refine ⟨?_, ?_, ?_, ?_, h5, h6⟩
    · show (0:ℚ) ≤ min (p.health / (p.getStats base).maxHealth * base.maxHealth) base.maxHealth
      exact le_min (mul_nonneg (div_nonneg h1 hMH) hbH) hbH
    · show min (p.health / (p.getStats base).maxHealth * base.maxHealth) base.maxHealth ≤
        base.maxHealth
      exact min_le_right _ _
    · show (0:ℚ) ≤ min (p.stamina / (p.getStats base).maxStamina * base.maxStamina) base.maxStamina
      exact le_min (mul_nonneg (div_nonneg h3 hMS) hbS) hbS
    · show min (p.stamina / (p.getStats base).maxStamina * base.maxStamina) base.maxStamina ≤
        base.maxStamina
      exact min_le_right _ _

theorem inv_reset (base : Stats) (p : Player) (hb : StatsOK base) :
    Inv base (p.reset base) := by
  obtain ⟨hbH, hbS, -, -, -⟩ := hb
  exact ⟨hbH, le_refl _, hbS, le_refl _, le_refl 0, show (0:ℚ) ≤ 100 by norm_num⟩

theorem inv_applyOp (base : Stats) (p : Player) (o : Op)
    (hb : StatsOK base) (h : Inv base p) (ho : o.valid) :
    Inv base (applyOp base p o) := by
  cases o with
  | takeDamage a => exact inv_takeDamage base p a hb h ho
  | gainKi now a => exact inv_gainKi base p now a h ho
  | useStamina now a => exact inv_useStamina base p now a h ho
  | regenerateStamina now d => exact inv_regenerateStamina base p now d hb h ho
  | consumeFlightStamina now d => exact inv_consumeFlightStamina base p now d hb h ho
  | updateCharging now d => exact inv_updateCharging base p now d h ho
  | activateTransformation now => exact inv_activateTransformation base p now hb h
  | endTransformation => exact inv_endTransformation base p hb h
  | reset => exact inv_reset base p hb

/-- Claim C1: for every player whose stat block is well-formed and that
satisfies the bounds invariant (in particular the freshly constructed
player), running any sequence of the public operations — `takeDamage`,
`gainKi`, `useStamina`, `regenerateStamina`, `consumeFlightStamina`,
`updateCharging`, `activateTransformation`, `endTransformation`, `reset` —
with the nonnegative amounts/deltas the game supplies preserves
`0 ≤ health ≤ effective max health`, `0 ≤ stamina ≤ effective max stamina`
and `0 ≤ ki ≤ 100`, where the effective maxima include the transformation
bonuses while transformed. -/
theorem player_bounds_invariant (base : Stats) (p : Player) (ops : List Op)
    (hb : StatsOK base) (h : Inv base p) (hops : ∀ o ∈ ops, o.valid) :
    Inv base (runOps base p ops) := by
  induction ops generalizing p with
  | nil => exact h
  | cons o rest ih =>
      exact ih (applyOp base p o)
        (inv_applyOp base p o hb h (hops o (List.mem_cons_self o rest)))
        (fun o' ho' => hops o' (List.mem_cons_of_mem o ho'))

/-- A concrete operation sequence exercising every operation of claim C1. -/
def demoOps : List Op :=
  [Op.takeDamage 10, Op.gainKi 100 (3/2), Op.useStamina 200 8,
    Op.regenerateStamina 700 (1667/100), Op.consumeFlightStamina 720 (1667/100),
    Op.updateCharging 740 (1667/100), Op.gainKi 760 100,
    Op.activateTransformation 800, Op.takeDamage 30, Op.endTransformation, Op.reset]

/-- Witness for claim C1: the hypotheses hold for the default character's
stat block, the freshly constructed player and a concrete operation
sequence, and the theorem then yields the bounds. -/
theorem player_bounds_invariant_witness :
    (StatsOK demoStats ∧ Inv demoStats (initialPlayer demoStats) ∧
      ∀ o ∈ demoOps, o.valid) ∧
    Inv demoStats (runOps demoStats (initialPlayer demoStats) demoOps) :=
  ⟨⟨by norm_num [StatsOK, demoStats],
    by norm_num [Inv, initialPlayer, demoStats, Player.getStats],
    by norm_num [demoOps, Op.valid]⟩,
    player_bounds_invariant demoStats (initialPlayer demoStats) demoOps
      (by norm_num [StatsOK, demoStats])
      (by norm_num [Inv, initialPlayer, demoStats, Player.getStats])
      (by norm_num [demoOps, Op.valid])⟩

/-! ## Transformation activation and expiry (claims C5, C6) -/

/-- Claim C5: `activateTransformation` called with `ki < 100` returns false
and mutates nothing; with `ki = 100` (transformation ready and not already
transformed) it zeroes ki, clears both threshold flags, sets
`isTransformed = true` with expiry `now + transformationDuration`, strictly
increases the effective max health and max stamina, and heals/boosts current
health and stamina by the bonus amounts clamped to the new boosted maxima.
The linkage hypothesis `canTransform → ki = 100` holds in every reachable
state: `canTransform` is only ever set by `updateTransformationState` after
`ki` was clamped to at most 100, and every path that resets `ki` below 100
(timeout, activation, reset) clears the flag in the same step. -/
theorem activateTransformation_spec (base : Stats) (p : Player) (now : ℚ)
    (hlink : p.canTransform = true → p.ki = 100) :
    (p.ki < 100 → p.activateTransformation base now = (false, p)) ∧
    (p.ki = 100 → p.canTransform = true → p.isTransformed = false →
      (p.activateTransformation base now).1 = true ∧
      ((p.activateTransformation base now).2).ki = 0 ∧
      ((p.activateTransformation base now).2).canTransform = false ∧
      ((p.activateTransformation base now).2).hasHalfPower = false ∧
      ((p.activateTransformation base now).2).isTransformed = true ∧
      ((p.activateTransformation base now).2).transformationEndTime
        = now + transformationDuration ∧
      (p.getStats base).maxHealth
        < (((p.activateTransformation base now).2).getStats base).maxHealth ∧
      (p.getStats base).maxStamina
        < (((p.activateTransformation base now).2).getStats base).maxStamina ∧
      ((p.activateTransformation base now).2).health
        = min (p.health + maxHealthBonus) (base.maxHealth + maxHealthBonus) ∧
      ((p.activateTransformation base now).2).stamina
        = min (p.stamina + maxStaminaBonus) (base.maxStamina + maxStaminaBonus)) := by
  constructor
  · intro hki
    have hcf : p.canTransform = false := by
      cases hc : p.canTransform
      · rfl
      · exact absurd (hlink hc) (by linarith)
    simp [Player.activateTransformation, hcf]
  · intro hki hcf hnt
    simp [Player.activateTransformation, hcf, hnt, Player.getStats, maxHealthBonus,
      maxStaminaBonus]

/-- A player whose Ki gauge has just reached 100 (transformation ready). -/
def readyPlayer : Player :=
  { initialPlayer demoStats with
      ki := 100
      canTransform := true
      hasHalfPower := true }

/-- Witness for claim C5 at a concrete ready player. -/
theorem activateTransformation_spec_witness :
    (readyPlayer.canTransform = true → readyPlayer.ki = 100) ∧
    (readyPlayer.activateTransformation demoStats 5000).1 = true :=
  ⟨fun _ => rfl,
    (((activateTransformation_spec demoStats readyPlayer 5000 (fun _ => rfl)).2)
      rfl rfl rfl).1⟩

/-- Claim C6: for every transformed player (whose pools satisfy the C1
bounds), `endTransformation` preserves the health and stamina ratios exactly
across the change of maxima:
`health_after / baseMaxHealth = health_before / transformedMaxHealth`, and
likewise for stamina (exact in rational arithmetic, hence within ±ε of the
floating-point evaluation). -/
theorem endTransformation_preserves_ratios (base : Stats) (p : Player)
    (ht : p.isTransformed = true)
    (hH : 0 < base.maxHealth) (hS : 0 < base.maxStamina)
    (hhb : p.health ≤ base.maxHealth + maxHealthBonus)
    (hsb : p.stamina ≤ base.maxStamina + maxStaminaBonus) :
    (p.endTransformation base).health / base.maxHealth
      = p.health / (base.maxHealth + maxHealthBonus) ∧
    (p.endTransformation base).stamina / base.maxStamina
      = p.stamina / (base.maxStamina + maxStaminaBonus) := by
  have hH20 : (0:ℚ) < base.maxHealth + maxHealthBonus := by norm_num [maxHealthBonus]; linarith
  have hS20 : (0:ℚ) < base.maxStamina + maxStaminaBonus := by norm_num [maxStaminaBonus]; linarith
  simp only [Player.endTransformation, ht, Bool.not_true, Bool.false_eq_true, if_false,
    Player.getStats, if_true]
  constructor
  · have hr : p.health / (base.maxHealth + maxHealthBonus) ≤ 1 :=
      (div_le_one hH20).mpr hhb
    have hminl : p.health / (base.maxHealth + maxHealthBonus) * base.maxHealth
        ≤ base.maxHealth := mul_le_of_le_one_left hH.le hr
    rw [min_eq_left hminl, mul_div_assoc, div_self hH.ne', mul_one]
  · have hr : p.stamina / (base.maxStamina + maxStaminaBonus) ≤ 1 :=
      (div_le_one hS20).mpr hsb
    have hminl : p.stamina / (base.maxStamina + maxStaminaBonus) * base.maxStamina
        ≤ base.maxStamina := mul_le_of_le_one_left hS.le hr
    rw [min_eq_left hminl, mul_div_assoc, div_self hS.ne', mul_one]

/-- A transformed player at 60/120 health and 90/120 stamina. -/
def transformedPlayer : Player :=
  { initialPlayer demoStats with
      isTransformed := true
      health := 60
      stamina := 90 }

/-- Witness for claim C6: `transformedPlayer` keeps exactly its health ratio
when the transformation ends. -/
theorem endTransformation_preserves_ratios_witness :
    (transformedPlayer.isTransformed = true ∧
      (0:ℚ) < demoStats.maxHealth ∧ (0:ℚ) < demoStats.maxStamina ∧
      transformedPlayer.health ≤ demoStats.maxHealth + maxHealthBonus ∧
      transformedPlayer.stamina ≤ demoStats.maxStamina + maxStaminaBonus) ∧
    (transformedPlayer.endTransformation demoStats).health / demoStats.maxHealth
      = transformedPlayer.health / (demoStats.maxHealth + maxHealthBonus) :=
  ⟨⟨rfl, by norm_num [demoStats], by norm_num [demoStats],
      by norm_num [transformedPlayer, initialPlayer, demoStats, maxHealthBonus],
      by norm_num [transformedPlayer, initialPlayer, demoStats, maxStaminaBonus]⟩,
    (endTransformation_preserves_ratios demoStats transformedPlayer
      rfl (by norm_num [demoStats]) (by norm_num [demoStats])
      (by norm_num [transformedPlayer, initialPlayer, demoStats, maxHealthBonus])
      (by norm_num [transformedPlayer, initialPlayer, demoStats, maxStaminaBonus])).1⟩

/-! ## Attack attempts (claims C7, C9) -/

/-- A concrete projectile as produced by the `createProjectile` factory. -/
def demoProjC7 : Projectile :=
  { owner := 1, damage := 10, dir := { x := 1, y := 0 }, shouldDestroy := false }

/-- Claim C7: `attemptAttack` returns false and mutates nothing — no stamina
deduction, no cooldown stamp, no projectile created or tracked — whenever the
cooldown has not elapsed or stamina is below the attack cost (in particular
for stamina 5 against cost 8, see the witness); on success it deducts the
stamina cost, stamps the cooldown with `now`, and tracks the new
projectile. -/
theorem attemptAttack_guards (base : Stats) (now : ℚ) (pn : Nat) (player : Player)
    (cooldowns : List (Nat × ℚ)) (projectiles : List Projectile) (newProj : Projectile) :
    ((now - ((cooldowns.lookup pn).getD 0) < (player.getStats base).attackCooldown ∨
        player.stamina < (player.getStats base).attackStaminaCost) →
      attemptAttack base now pn player cooldowns projectiles newProj
        = { ok := false, player := player, cooldowns := cooldowns,
            projectiles := projectiles }) ∧
    (¬ now - ((cooldowns.lookup pn).getD 0) < (player.getStats base).attackCooldown →
      ¬ player.stamina < (player.getStats base).attackStaminaCost →
      (attemptAttack base now pn player cooldowns projectiles newProj).ok = true ∧
      (attemptAttack base now pn player cooldowns projectiles newProj).player.stamina
        = player.stamina - (player.getStats base).attackStaminaCost ∧
      (((attemptAttack base now pn player cooldowns projectiles newProj).cooldowns.lookup
          pn).getD 0) = now ∧
      (attemptAttack base now pn player cooldowns projectiles newProj).projectiles
        = projectiles ++ [newProj]) := by
  constructor
  · intro h
    simp only [attemptAttack]
    split_ifs with h1 h2
    · rfl
    · rfl
    · rcases h with h | h
      · exact absurd h h1
      · exact absurd h h2
  · intro h1 h2
    simp only [attemptAttack]
    rw [if_neg h1, if_neg h2]
    refine ⟨rfl, ?_, ?_, rfl⟩
    · show ((player.useStamina now (player.getStats base).attackStaminaCost).2).stamina
        = player.stamina - (player.getStats base).attackStaminaCost
      simp only [Player.useStamina]
      rw [if_neg h2]
    · simp [List.lookup]

/-- A player with 5 stamina (below the attack cost of 8). -/
def lowStaminaPlayer : Player :=
  { initialPlayer demoStats with stamina := 5 }

/-- Witness for claim C7: the spec's scenario — stamina 5 against cost 8,
cooldown long elapsed — returns false with nothing mutated. -/
theorem attemptAttack_guards_witness :
    lowStaminaPlayer.stamina < (lowStaminaPlayer.getStats demoStats).attackStaminaCost ∧
    attemptAttack demoStats 1000 1 lowStaminaPlayer [] [] demoProjC7
      = { ok := false, player := lowStaminaPlayer, cooldowns := [], projectiles := [] } :=
  ⟨by norm_num [lowStaminaPlayer, initialPlayer, Player.getStats, demoStats],
    (attemptAttack_guards demoStats 1000 1 lowStaminaPlayer [] [] demoProjC7).1
      (Or.inr (by norm_num [lowStaminaPlayer, initialPlayer, Player.getStats, demoStats]))⟩

/-- Claim C9: `attemptAttack` never consults the attacker's state: a player
in STUNNED or DEAD state (hence failing the `canAct` gate that guards the
`Player`'s own move/jump/startCharging paths) still attacks successfully
whenever the cooldown has elapsed and stamina covers the cost — stamina is
deducted, the cooldown stamped and the projectile tracked.  For contrast,
`startCharging`, which does consult `canAct`, rejects the same player. -/
theorem attemptAttack_ignores_state (base : Stats) (now : ℚ) (pn : Nat) (player : Player)
    (cooldowns : List (Nat × ℚ)) (projectiles : List Projectile) (newProj : Projectile)
    (hstate : player.state = PState.STUNNED ∨ player.state = PState.DEAD)
    (hcd : (player.getStats base).attackCooldown ≤ now - ((cooldowns.lookup pn).getD 0))
    (hst : (player.getStats base).attackStaminaCost ≤ player.stamina) :
    player.canAct = false ∧
    (player.startCharging now).1 = false ∧ (player.startCharging now).2 = player ∧
    (attemptAttack base now pn player cooldowns projectiles newProj).ok = true ∧
    (attemptAttack base now pn player cooldowns projectiles newProj).player.stamina
      = player.stamina - (player.getStats base).attackStaminaCost ∧
    (((attemptAttack base now pn player cooldowns projectiles newProj).cooldowns.lookup
        pn).getD 0) = now ∧
    (attemptAttack base now pn player cooldowns projectiles newProj).projectiles
      = projectiles ++ [newProj] := by
  have hact : player.canAct = false := by
    rcases hstate with h | h <;> simp [Player.canAct, h]
  refine ⟨hact, ?_, ?_, ?_, ?_, ?_, ?_⟩
  · simp [Player.startCharging, hact]
  · simp [Player.startCharging, hact]
  · simp only [attemptAttack]
    rw [if_neg (not_lt.mpr hcd), if_neg (not_lt.mpr hst)]
  · simp only [attemptAttack]
    rw [if_neg (not_lt.mpr hcd), if_neg (not_lt.mpr hst)]
    show ((player.useStamina now (player.getStats base).attackStaminaCost).2).stamina
      = player.stamina - (player.getStats base).attackStaminaCost
    simp only [Player.useStamina]
    rw [if_neg (not_lt.mpr hst)]
  · simp only [attemptAttack]
    rw [if_neg (not_lt.mpr hcd), if_neg (not_lt.mpr hst)]
    simp [List.lookup]
  · simp only [attemptAttack]
    rw [if_neg (not_lt.mpr hcd), if_neg (not_lt.mpr hst)]

/-- A player knocked out but with full stamina (reachable: killed while
stamina was full, the invincibility window has lapsed). -/
def deadAttacker : Player :=
  { initialPlayer demoStats with
      state := PState.DEAD
      health := 0 }

/-- Witness for claim C9: the DEAD player fires successfully. -/
theorem attemptAttack_ignores_state_witness :
    (deadAttacker.state = PState.STUNNED ∨ deadAttacker.state = PState.DEAD) ∧
    (deadAttacker.getStats demoStats).attackCooldown ≤ 1000 - (([] : List (Nat × ℚ)).lookup 1).getD 0 ∧
    (deadAttacker.getStats demoStats).attackStaminaCost ≤ deadAttacker.stamina ∧
    (attemptAttack demoStats 1000 1 deadAttacker [] [] demoProjC7).ok = true :=
  ⟨Or.inr rfl,
    by norm_num [deadAttacker, initialPlayer, Player.getStats, demoStats],
    by norm_num [deadAttacker, initialPlayer, Player.getStats, demoStats],
    (attemptAttack_ignores_state demoStats 1000 1 deadAttacker [] [] demoProjC7
      (Or.inr rfl)
      (by norm_num [deadAttacker, initialPlayer, Player.getStats, demoStats])
      (by norm_num [deadAttacker, initialPlayer, Player.getStats, demoStats])).2.2.2.1⟩

/-! ## Hit resolution (claims C10, C3, C2, C4) -/

/-- Claim C10: when `applyProjectileHit` is invoked on an invincible target
the projectile is left untouched — not destroyed, `shouldDestroy` unchanged,
still in the tracked active set — so it can still hit on a later collision;
the target and attacker are also unchanged. -/
theorem invincible_hit_keeps_projectile (base : Stats) (now : ℚ) (proj : Projectile)
    (target : Player) (attacker : Option Player) (projectiles : List Projectile)
    (hinv : target.isInvincible = true) :
    (applyProjectileHit base now proj target attacker projectiles).destroyed = false ∧
    (applyProjectileHit base now proj target attacker projectiles).proj = proj ∧
    (applyProjectileHit base now proj target attacker projectiles).proj.shouldDestroy
      = proj.shouldDestroy ∧
    (applyProjectileHit base now proj target attacker projectiles).projectiles
      = projectiles ∧
    (proj ∈ projectiles →
      proj ∈ (applyProjectileHit base now proj target attacker projectiles).projectiles) ∧
    (applyProjectileHit base now proj target attacker projectiles).target = target ∧
    (applyProjectileHit base now proj target attacker projectiles).attacker = attacker := by
  simp [applyProjectileHit, hinv]

/-- An invincible target inside its post-hit invincibility window. -/
def invincibleTarget : Player :=
  { initialPlayer demoStats with isInvincible := true }

/-- Witness for claim C10 on a concrete tracked projectile. -/
theorem invincible_hit_keeps_projectile_witness :
    invincibleTarget.isInvincible = true ∧
    (applyProjectileHit demoStats 0 demoProjC7 invincibleTarget none
      [demoProjC7]).projectiles = [demoProjC7] :=
  ⟨rfl,
    (invincible_hit_keeps_projectile demoStats 0 demoProjC7 invincibleTarget none
      [demoProjC7] rfl).2.2.2.1⟩

theorem setState_damageTaken (p : Player) (s : PState) :
    (p.setState s).damageTaken = p.damageTaken := by
  unfold Player.setState
  split <;> rfl

theorem updateTransformationState_damageTaken (now : ℚ) (p : Player) :
    (p.updateTransformationState now).damageTaken = p.damageTaken := by
  simp only [Player.updateTransformationState]
  split <;> rfl

theorem gainKi_damageTaken (now a : ℚ) (p : Player) :
    (p.gainKi now a).damageTaken = p.damageTaken := by
  simp only [Player.gainKi, updateTransformationState_damageTaken]

theorem takeDamage_damageTaken (p : Player) (a : ℚ)
    (hinv : p.isInvincible = false) (hdead : p.state ≠ PState.DEAD)
    (hT : p.isTransformed = false) :
    (p.takeDamage a).damageTaken = p.damageTaken + a := by
  simp only [Player.takeDamage, hinv, hT, Bool.false_eq_true, if_false, if_neg hdead]
  split
  · rw [setState_damageTaken]
  · rfl

/-- Claim C3 amended: the knockback damage multiplier is computed from the
target's cumulative `damageTaken` *after* `takeDamage` has already added this
hit's own damage, so resolving a hit on a live, untransformed, non-invincible
target whose `damageTaken` was 50 before the hit yields a pre-resistance
magnitude of `F × (1 + (50 + d) × 0.01)` for projectile damage `d`
(`F × 1.6` for the standard 10-damage projectile), not `F × 1.5`. -/
theorem knockback_magnitude_after_damage (base : Stats) (now : ℚ) (proj : Projectile)
    (target : Player) (attacker : Option Player) (projectiles : List Projectile)
    (hinv : target.isInvincible = false) (hdead : target.state ≠ PState.DEAD)
    (hT : target.isTransformed = false) (hdt : target.damageTaken = 50) :
    ((applyProjectileHit base now proj target attacker projectiles).kb.map
        KbInfo.magnitude)
      = some (knockbackForce * (1 + (50 + proj.damage) * knockbackScaling)) := by
  simp only [applyProjectileHit, hinv, Bool.false_eq_true, if_false]
  rw [gainKi_damageTaken, takeDamage_damageTaken target proj.damage hinv hdead hT, hdt]
  rfl

/-- The standard projectile (damage 10) aimed horizontally. -/
def demoProjC3 : Projectile :=
  { owner := 2, damage := 10, dir := { x := -1, y := 0 }, shouldDestroy := false }

/-- A live, untransformed target that has accumulated exactly 50 damage. -/
def pressuredTarget : Player :=
  { initialPlayer demoStats with
      health := 50
      damageTaken := 50 }

/-- Witness for claim C3 (amended) at the spec's scenario values: damage
taken 50, base force `F = knockbackForce`, scaling 0.01, projectile damage
10. -/
theorem knockback_magnitude_after_damage_witness :
    (pressuredTarget.isInvincible = false ∧ pressuredTarget.state ≠ PState.DEAD ∧
      pressuredTarget.isTransformed = false ∧ pressuredTarget.damageTaken = 50) ∧
    ((applyProjectileHit demoStats 0 demoProjC3 pressuredTarget none []).kb.map
        KbInfo.magnitude)
      = some (knockbackForce * (1 + (50 + demoProjC3.damage) * knockbackScaling)) :=
  ⟨⟨rfl, by decide, rfl, rfl⟩,
    knockback_magnitude_after_damage demoStats 0 demoProjC3 pressuredTarget none []
      rfl (by decide) rfl rfl⟩

/-- Claim C3 counterexample: at the spec's scenario (cumulative
`damageTaken = 50` when the hit arrives, scaling 0.01, standard 10-damage
projectile, live untransformed target) the code's pre-resistance magnitude is
`F × 1.6`, not the claimed `F × 1.5`. -/
theorem knockback_magnitude_not_1_5 :
    ((applyProjectileHit demoStats 0 demoProjC3 pressuredTarget none []).kb.map
        KbInfo.magnitude) = some (knockbackForce * (16/10)) ∧
    ((applyProjectileHit demoStats 0 demoProjC3 pressuredTarget none []).kb.map
        KbInfo.magnitude) ≠ some (knockbackForce * (15/10)) := by
  have hmag : ((applyProjectileHit demoStats 0 demoProjC3 pressuredTarget none []).kb.map
      KbInfo.magnitude) = some (knockbackForce * (1 + (50 + (10:ℚ)) * knockbackScaling)) := by
    have hinv : pressuredTarget.isInvincible = false := rfl
    simp only [applyProjectileHit, hinv, Bool.false_eq_true, if_false]
    rw [gainKi_damageTaken, takeDamage_damageTaken pressuredTarget demoProjC3.damage rfl
      (by decide) rfl]
    rfl
  rw [hmag]
  constructor
  · norm_num [knockbackForce, knockbackScaling]
  · simp only [ne_eq, Option.some.injEq]
    norm_num [knockbackForce, knockbackScaling]

theorem setState_state (p : Player) (s : PState) : (p.setState s).state = s := by
  unfold Player.setState
  split
  · assumption
  · rfl

theorem setState_ki (p : Player) (s : PState) : (p.setState s).ki = p.ki := by
  unfold Player.setState
  split <;> rfl

theorem exitFlight_ki (p : Player) : p.exitFlight.ki = p.ki := by
  unfold Player.exitFlight
  split
  · rfl
  · exact setState_ki p _

theorem updateTransformationState_ki (now : ℚ) (p : Player) :
    (p.updateTransformationState now).ki = p.ki := by
  simp only [Player.updateTransformationState]
  split <;> rfl

theorem gainKi_ki (now a : ℚ) (p : Player) :
    (p.gainKi now a).ki = min maxKi (p.ki + a) := by
  simp only [Player.gainKi, updateTransformationState_ki]

theorem applyKnockback_state (base : Stats) (f : ℚ) (p : Player) :
    (p.applyKnockback base f).state = PState.STUNNED := by
  simp only [Player.applyKnockback]
  exact setState_state _ _

theorem applyKnockback_ki (base : Stats) (f : ℚ) (p : Player) :
    (p.applyKnockback base f).ki = p.ki := by
  simp only [Player.applyKnockback]
  rw [setState_ki]
  split
  · exact exitFlight_ki p
  · rfl

/-- `takeDamage` on a dead, non-invincible player is a no-op. -/
theorem takeDamage_dead (p : Player) (a : ℚ)
    (hdead : p.state = PState.DEAD) (hinv : p.isInvincible = false) :
    p.takeDamage a = p := by
  simp [Player.takeDamage, hdead, hinv]

/-- The direction the spec's degeneracy test feeds: `(0, 0.4)`, whose `y`
exactly cancels the fixed upward bias `-0.4`. -/
def degenerateProj : Projectile :=
  { owner := 1, damage := 10, dir := { x := 0, y := 2/5 }, shouldDestroy := false }

/-- A freshly spawned (non-invincible) target. -/
def plainTarget : Player := initialPlayer demoStats

/-- Claim C2: evaluating `applyProjectileHit` at projectile direction
`(0, 0.4)` on a non-invincible target, the combined knockback direction
`(dirX, dirY + upwardBias)` has squared magnitude exactly 0, so
`dirMag = Math.sqrt 0 = 0` and the source's `dirX / dirMag`, `dirY / dirMag`
divide by a zero-magnitude vector (`0/0 = NaN` in JavaScript), producing a
non-finite knockback force: the claimed guard does not exist in the code. -/
theorem knockback_direction_degenerate :
    plainTarget.isInvincible = false ∧
    degenerateProj.dir.y + upwardBias = 0 ∧
    ((applyProjectileHit demoStats 0 degenerateProj plainTarget none []).kb.map
        KbInfo.dirMagSq) = some 0 := by
  have hinv : plainTarget.isInvincible = false := rfl
  refine ⟨hinv, by norm_num [degenerateProj, upwardBias], ?_⟩
  simp only [applyProjectileHit, hinv, Bool.false_eq_true, if_false, Option.map_some',
    Option.some.injEq]
  norm_num [degenerateProj, upwardBias]

/-- A knocked-out target whose invincibility window has lapsed while it
awaits respawn. -/
def deadTarget : Player :=
  { initialPlayer demoStats with
      state := PState.DEAD
      health := 0
      damageTaken := 120 }

/-- Claim C4: evaluating `applyProjectileHit` on a DEAD, non-invincible
target refutes the claim on the code: the hit grants the dead target
`kiGainOnDamage = 1.5` Ki (its ki changes from 0 to 3/2) and transitions its
state out of DEAD to STUNNED without any `reset` — `takeDamage` alone guards
the DEAD state; the Ki grant and `applyKnockback → setState(STUNNED)` path
does not. -/
theorem dead_target_mutated_by_hit :
    deadTarget.state = PState.DEAD ∧ deadTarget.isInvincible = false ∧
    deadTarget.ki = 0 ∧
    (applyProjectileHit demoStats 0 demoProjC3 deadTarget none []).target.ki = 3/2 ∧
    (applyProjectileHit demoStats 0 demoProjC3 deadTarget none []).target.state
      = PState.STUNNED := by
  have hinv : deadTarget.isInvincible = false := rfl
  refine ⟨rfl, rfl, rfl, ?_, ?_⟩
  · simp only [applyProjectileHit, hinv, Bool.false_eq_true, if_false]
    rw [applyKnockback_ki, gainKi_ki, takeDamage_dead deadTarget _ rfl rfl]
    norm_num [deadTarget, initialPlayer, demoStats, maxKi, kiGainOnDamage, min_def]
  · simp only [applyProjectileHit, hinv, Bool.false_eq_true, if_false]
    rw [applyKnockback_state]

/-! ## Flight stamina drain (claim C8) -/

/-- A stat block whose flight drain is exactly 1 stamina per 16.67 ms frame
(the spec scenario's "drain rate 1/tick"). -/
def flightDemoStats : Stats :=
  { demoStats with flightStaminaDrain := 1 }

/-- One flight frame with no input: the update loop's per-frame
`consumeFlightStamina(delta)` call at a full 16.67 ms frame delta (`now` is
irrelevant to the drained amount and taken as 0). -/
def flightTick (p : Player) : Player :=
  (p.consumeFlightStamina flightDemoStats 0 frameUnit).2

/-- A player flying with the given stamina. -/
def flightState (q : ℚ) : Player :=
  { initialPlayer flightDemoStats with
      state := PState.FLYING
      stamina := q }

theorem flightTick_step (q : ℚ) (h : 0 < q - 1) :
    flightTick (flightState q) = flightState (q - 1) := by
  have hfr : frameUnit / frameUnit = (1:ℚ) := by norm_num [frameUnit]
  have hmax : max 0 (q - 1) = q - 1 := max_eq_right (by linarith)
  simp only [flightTick, Player.consumeFlightStamina, Player.isFlying, flightState,
    initialPlayer, flightDemoStats, demoStats, hfr, beq_self_eq_true, Bool.not_true,
    Bool.false_eq_true, if_false, one_mul, mul_one, hmax]
  rw [if_neg (not_le.mpr h)]

theorem flightTick_exit (q : ℚ) (h : q - 1 ≤ 0) :
    flightTick (flightState q) = { flightState 0 with state := PState.AIRBORNE } := by
  have hfr : frameUnit / frameUnit = (1:ℚ) := by norm_num [frameUnit]
  have hmax : max 0 (q - 1) = 0 := max_eq_left h
  simp only [flightTick, Player.consumeFlightStamina, Player.isFlying, flightState,
    initialPlayer, flightDemoStats, demoStats, hfr, beq_self_eq_true, Bool.not_true,
    Bool.false_eq_true, if_false, one_mul, mul_one, hmax]
  rw [if_pos (le_refl (0:ℚ))]
  simp only [Player.exitFlight, Player.isFlying, Player.setState, beq_self_eq_true,
    Bool.not_true, Bool.false_eq_true, if_false]
  rw [if_neg (show ¬(PState.FLYING = PState.AIRBORNE) by decide)]

theorem setState_stamina (p : Player) (s : PState) : (p.setState s).stamina = p.stamina := by
  unfold Player.setState
  split <;> rfl

theorem exitFlight_stamina (p : Player) : p.exitFlight.stamina = p.stamina := by
  unfold Player.exitFlight
  split
  · rfl
  · exact setState_stamina p _

theorem exitFlight_state (p : Player) (h : p.state = PState.FLYING) :
    p.exitFlight.state = PState.AIRBORNE := by
  unfold Player.exitFlight Player.isFlying
  rw [h]
  simp only [beq_self_eq_true, Bool.not_true, Bool.false_eq_true, if_false]
  exact setState_state p _

/-- Claim C8: while FLYING, every `consumeFlightStamina` tick drains stamina
at the character's per-frame rate (clamped at zero) and hitting zero forces
an immediate `exitFlight` back to AIRBORNE (otherwise the player keeps
flying); in particular a player that enters flight with stamina 10 at a
drain rate of 1 per 16.67 ms tick is, after exactly 10 ticks with no input,
AIRBORNE with stamina 0. -/
theorem flying_drain_and_zero_exit (base : Stats) (now delta : ℚ) (p : Player)
    (hf : p.state = PState.FLYING) :
    ((p.consumeFlightStamina base now delta).2).stamina
      = max 0 (p.stamina - base.flightStaminaDrain * (delta / frameUnit)) ∧
    (p.stamina - base.flightStaminaDrain * (delta / frameUnit) ≤ 0 →
      ((p.consumeFlightStamina base now delta).2).state = PState.AIRBORNE) ∧
    (0 < p.stamina - base.flightStaminaDrain * (delta / frameUnit) →
      ((p.consumeFlightStamina base now delta).2).state = PState.FLYING) ∧
    (flightTick (flightTick (flightTick (flightTick (flightTick (flightTick (flightTick
        (flightTick (flightTick (flightTick (flightState 10))))))))))).state
      = PState.AIRBORNE ∧
    (flightTick (flightTick (flightTick (flightTick (flightTick (flightTick (flightTick
        (flightTick (flightTick (flightTick (flightState 10))))))))))).stamina = 0 := by
  have s10 := flightTick_step 10 (by norm_num)
  have s9 := flightTick_step 9 (by norm_num)
  have s8 := flightTick_step 8 (by norm_num)
  have s7 := flightTick_step 7 (by norm_num)
  have s6 := flightTick_step 6 (by norm_num)
  have s5 := flightTick_step 5 (by norm_num)
  have s4 := flightTick_step 4 (by norm_num)
  have s3 := flightTick_step 3 (by norm_num)
  have s2 := flightTick_step 2 (by norm_num)
  have s1 := flightTick_exit 1 (by norm_num)
  norm_num at s10 s9 s8 s7 s6 s5 s4 s3 s2
  simp only [Player.consumeFlightStamina, Player.isFlying, hf, beq_self_eq_true,
    Bool.not_true, Bool.false_eq_true, if_false]
  refine ⟨?_, ?_, ?_, ?_, ?_⟩
  · split_ifs with hz
    · show (Player.exitFlight _).stamina = _
      rw [exitFlight_stamina]
    · rfl
  · intro hle
    rw [if_pos (by rw [max_eq_left hle])]
    exact exitFlight_state _ rfl
  · intro hlt
    rw [if_neg (by rw [max_eq_right hlt.le]; exact not_le.mpr hlt)]
  · rw [s10, s9, s8, s7, s6, s5, s4, s3, s2, s1]
  · rw [s10, s9, s8, s7, s6, s5, s4, s3, s2, s1]
    exact rfl

/-- Witness for claim C8: the flying player of the scenario itself. -/
theorem flying_drain_and_zero_exit_witness :
    (flightState 10).state = PState.FLYING ∧
    (flightTick (flightTick (flightTick (flightTick (flightTick (flightTick (flightTick
        (flightTick (flightTick (flightTick (flightState 10))))))))))).state
      = PState.AIRBORNE :=
  ⟨rfl, (flying_drain_and_zero_exit flightDemoStats 0 frameUnit (flightState 10)
    rfl).2.2.2.1⟩

end DBZArena
